import Mathlib

/-!
Verification of the compile-and-run orchestration package.

The definitions below are a shallow embedding of `src/index.js`:
configuration reads become fields of a `Config` record, the argument
assembly (`getArgs`), compiler lookup (`getCommand`), output-path
computation (`getCompiledPath`), the terminal dispatch in `runProgram`
and the exit-code handler of `compile` become pure Lean functions.
Side effects (notifications, file writes, process spawns) are recorded
as an explicit trace of `Effect` values, in the order the code performs
them.
-/

namespace PulsarGppCompiler

/-- Configuration values read via `atom.config.get("pulsar-gpp-compiler.*")`. -/
structure Config where
  addCompilingErr : Bool
  splitDirection : String
  debug : Bool
  cCompilerOptions : String
  cppCompilerOptions : String
  runAfterCompile : Bool
  showWarnings : Bool
  cCompiler : String
  cppCompiler : String
  compileToTmpDirectory : Bool
  closeErrorTabOnSuccess : Bool
  showErrorNotifications : Bool
  linuxTerminal : Option String

/-- Result of `path.parse`: directory, stem, full base name, extension. -/
structure PathInfo where
  dir : String
  name : String
  base : String
  ext : String
deriving DecidableEq, Repr

/-- Embedding of `path.join(a, b)` for the joins used by the package. -/
def pathJoin (a b : String) : String := a ++ "/" ++ b

/-- Embedding of `getCompiledPath(dir, base)`: the output binary goes to the
system temporary directory when `compileToTmpDirectory` is set, otherwise
next to the source. `tmpdir` stands for `os.tmpdir()`. -/
def getCompiledPath (cfg : Config) (tmpdir dir base : String) : String :=
  if cfg.compileToTmpDirectory then pathJoin tmpdir base else pathJoin dir base

/-- Embedding of `getCommand(fileType)`: a JS `switch` with cases `"C"` and
`"C++"` and no default, so any other classification (including an absent
one) falls through and the function returns `undefined`. -/
def getCommand (cfg : Config) (fileType : Option String) : Option String :=
  if fileType = some "C" then some cfg.cCompiler
  else if fileType = some "C++" then some cfg.cppCompiler
  else none

/-- Tail of the JavaScript `String.prototype.split` loop: characters still to
scan, characters of the current token (reversed). -/
def jsSplitAux (sep : Char → Bool) : List Char → List Char → List String
  | [], acc => [String.mk acc.reverse]
  | c :: cs, acc =>
      if sep c then String.mk acc.reverse :: jsSplitAux sep cs []
      else jsSplitAux sep cs (c :: acc)

/-- JavaScript `String.prototype.split` with a single-character separator
generalized to a character predicate: adjacent separators and separators at
either end produce empty-string tokens, and `"".split` gives `[""]`. -/
def jsSplit (sep : Char → Bool) (s : String) : List String := jsSplitAux sep s.data []

/-- Embedding of `getArgs(files, output, fileType, extraArgs)`: a null
`extraArgs` becomes `[]`; the vector is extraArgs ++ files ++ ["-o", output]
++ the configured options string split on `" "` (the single space character,
as `String.prototype.split(" ")` does) with empty tokens removed by
`.filter(Boolean)`. The options key is `cppCompilerOptions` exactly when
`fileType === "C++"`, else `cCompilerOptions`. -/
def getArgs (files : List String) (output : String) (fileType : Option String)
    (extraArgs : Option (List String)) (cfg : Config) : List String :=
  let extra := extraArgs.getD []
  let opts := if fileType = some "C++" then cfg.cppCompilerOptions else cfg.cCompilerOptions
  extra ++ files ++ ["-o", output]
    ++ ((jsSplit (fun c => c = ' ') opts).filter (fun s => s ≠ ""))

/-- A detached process spawn: executable, argument vector, working directory. -/
structure SpawnCall where
  command : String
  args : List String
  cwd : String
deriving DecidableEq, Repr

/-- Embedding of the `switch (terminal)` table in `runProgram`'s Linux
branch: terminal executable and the argument list built before the
`gdb`/file arguments are appended. The JS `switch` compares with strict
equality and its `default` case catches an unset (`undefined`) or
unrecognized configuration value. -/
def linuxTerminalTable (terminal : Option String) (gdb : Bool) : String × List String :=
  if terminal = some "GNOME Terminal" then ("gnome-terminal", ["--command"])
  else if terminal = some "Konsole" then ("konsole", (if gdb then [] else ["--hold"]) ++ ["-e"])
  else if terminal = some "xfce4-terminal" then
    ("xfce4-terminal", (if gdb then [] else ["--hold"]) ++ ["--command"])
  else if terminal = some "pantheon-terminal" then ("pantheon-terminal", ["-e"])
  else if terminal = some "URxvt" then ("urxvt", (if gdb then [] else ["-hold"]) ++ ["-e"])
  else if terminal = some "MATE Terminal" then ("mate-terminal", ["--command"])
  else ("xterm", (if gdb then [] else ["-hold"]) ++ ["-e"])

/-- Embedding of the Linux spawn in `runProgram`:
`spawn(terminalCommand, [...args, ...(gdb ? ["gdb"] : []), file], {cwd: info.dir})`. -/
def linuxTerminalSpawn (cfg : Config) (tmpdir : String) (info : PathInfo) (gdb : Bool) :
    SpawnCall :=
  let file := getCompiledPath cfg tmpdir info.dir info.name
  let t := linuxTerminalTable cfg.linuxTerminal gdb
  { command := t.1, args := t.2 ++ (if gdb then ["gdb"] else []) ++ [file], cwd := info.dir }

/-- Embedding of the Windows command template in `runProgram`:
`start "${info.name}" cmd /C "${gdb ? "gdb" : ""} ${file} ${gdb ? "" : "& echo. & pause"}`.
Note the template closes neither the quote opened after `cmd /C` nor adds
one at the end. -/
def winCommand (name file : String) (gdb : Bool) : String :=
  "start \"" ++ name ++ "\" cmd /C \"" ++ (if gdb then "gdb" else "") ++ " " ++ file ++ " "
    ++ (if gdb then "" else "& echo. & pause")

/-- One observable side effect of the package, in the order performed. -/
inductive Effect where
  | saveEditor : Effect
  | spawnCompiler (command : Option String) (args : List String) (cwd : String) : Effect
  | notifyError (msg : String) : Effect
  | notifyWarning (msg : String) : Effect
  | notifySuccess (msg : String) : Effect
  | writeFile (path content : String) : Effect
  | openFile (path : String) : Effect
  | closeTab (path : String) : Effect
  | deleteFile (path : String) : Effect
  | logged (msg : String) : Effect
  | spawnTerminal (call : SpawnCall) : Effect
  | execShell (command cwd : String) : Effect
  | raisedException : Effect
deriving DecidableEq, Repr

/-- Embedding of `runProgram(info, gdb)` as the effect trace it produces,
dispatching on `process.platform`: Linux spawns the selected terminal,
Windows `exec`s a shell command line, macOS spawns `open` with the compiled
file; any other platform does nothing. -/
def runProgram (platform : String) (cfg : Config) (tmpdir : String) (info : PathInfo)
    (gdb : Bool) : List Effect :=
  let file := getCompiledPath cfg tmpdir info.dir info.name
  if platform = "linux" then [Effect.spawnTerminal (linuxTerminalSpawn cfg tmpdir info gdb)]
  else if platform = "win32" then [Effect.execShell (winCommand info.name file gdb) info.dir]
  else if platform = "darwin" then
    [Effect.spawnTerminal { command := "open", args := [file], cwd := info.dir }]
  else []

/-- How the `try { fs.writeFile(...); atom.workspace.open(...) }` block in the
failure branch of `compile` can go: both steps succeed, the write itself
rejects, or the write succeeds and the subsequent open rejects. -/
inductive WriteOutcome where
  | ok : WriteOutcome
  | writeFailed : WriteOutcome
  | openFailed : WriteOutcome
deriving DecidableEq, Repr

/-- The fixed diagnostics-artifact path `path.join(info.dir, "compiling_error.txt")`. -/
def errPath (info : PathInfo) : String := pathJoin info.dir "compiling_error.txt"

/-- Embedding of the `child.on("close", ...)` handler of `compile`, as the
effect trace it produces given the exit code, the accumulated stderr, the
outcome of the artifact write/open, the paths of the open text editors and
whether the artifact file currently exists (deciding `fs.access`). -/
def compileOnClose (platform : String) (cfg : Config) (tmpdir : String) (info : PathInfo)
    (gdb : Bool) (code : Nat) (stderr : String) (wOut : WriteOutcome)
    (openEditors : List String) (artifactExists : Bool) : List Effect :=
  if code ≠ 0 then
    (if cfg.showErrorNotifications then
      [Effect.notifyError (stderr.replace "\n" "<br/>")] else [])
    ++ (if cfg.addCompilingErr then
          match wOut with
          | WriteOutcome.ok => [Effect.writeFile (errPath info) stderr, Effect.openFile (errPath info)]
          | WriteOutcome.writeFailed => [Effect.logged "Error writing compiling_error.txt"]
          | WriteOutcome.openFailed =>
              [Effect.writeFile (errPath info) stderr, Effect.logged "Error writing compiling_error.txt"]
        else [])
  else
    (if stderr ≠ "" ∧ cfg.showWarnings then
      [Effect.notifyWarning (stderr.replace "\n" "<br/>")] else [])
    ++ (if cfg.runAfterCompile then runProgram platform cfg tmpdir info gdb
        else [Effect.notifySuccess "Compilation Successful"])
    ++ (if cfg.closeErrorTabOnSuccess then
          (openEditors.filter (fun p => p = errPath info)).map Effect.closeTab
        else [])
    ++ (if artifactExists then [Effect.deleteFile (errPath info)]
        else [Effect.logged "Error deleting compiling_error.txt"])
    ++ [Effect.openFile (pathJoin info.dir info.base)]

/-- Embedding of `compile(command, info, args, gdb)`: save the active editor
if there is one, spawn the compiler (with whatever `command` was passed, no
guard), then run the close handler. -/
def compileEffects (platform : String) (cfg : Config) (tmpdir : String)
    (command : Option String) (info : PathInfo) (args : List String) (gdb : Bool)
    (editorOpen : Bool) (code : Nat) (stderr : String) (wOut : WriteOutcome)
    (openEditors : List String) (artifactExists : Bool) : List Effect :=
  (if editorOpen then [Effect.saveEditor] else [])
  ++ [Effect.spawnCompiler command args info.dir]
  ++ compileOnClose platform cfg tmpdir info gdb code stderr wOut openEditors artifactExists

/-- Embedding of `path.parse` for the fields the package uses. -/
def parsePath (p : String) : PathInfo :=
  let comps := jsSplit (fun c => c = '/') p
  let base := comps.getLastD ""
  let dir := String.intercalate "/" comps.dropLast
  let parts := jsSplit (fun c => c = '.') base
  if parts.length ≤ 1 then { dir := dir, name := base, base := base, ext := "" }
  else
    { dir := dir, name := String.intercalate "." parts.dropLast, base := base,
      ext := "." ++ parts.getLastD "" }

/-- State of `atom.workspace.getActiveTextEditor().buffer.file` as seen by
`compileFile`: `none` means there is no active text editor (so the property
access throws a `TypeError`), `some none` means an editor whose buffer has
no file, `some (some p)` an editor backed by the file at `p`. -/
def getFilePath (activeEditor : Option (Option String)) : Except Unit (Option String) :=
  match activeEditor with
  | none => Except.error ()
  | some f => Except.ok f

/-- Embedding of `compileFile(fileType, gdb)`: `getFilePath` runs outside any
`try`, so when no active editor exists the `TypeError` escapes uncaught; a
file-less buffer takes the `else` branch and only posts an error
notification; otherwise the compile pipeline runs. -/
def compileFile (platform : String) (cfg : Config) (tmpdir : String)
    (activeEditor : Option (Option String)) (fileType : Option String) (gdb : Bool)
    (code : Nat) (stderr : String) (wOut : WriteOutcome) (openEditors : List String)
    (artifactExists : Bool) : List Effect :=
  match activeEditor with
  | none => [Effect.raisedException]
  | some none => [Effect.notifyError "File not found. Save before compiling."]
  | some (some filePath) =>
      let info := parsePath filePath
      compileEffects platform cfg tmpdir (getCommand cfg fileType) info
        (getArgs [filePath] (getCompiledPath cfg tmpdir info.dir info.name) fileType
          (if gdb then some ["-g"] else none) cfg)
        gdb true code stderr wOut openEditors artifactExists

/-- Whitespace in the sense of the specification's "split on whitespace". -/
def isWhitespaceChar (c : Char) : Bool :=
  c = ' ' ∨ c = '\t' ∨ c = '\n' ∨ c = '\r'

/-- The compiler argument vector exactly as claim C1 describes it: debug flag
iff requested, then the source paths, then `-o` and the output path, then the
extra-flags string split on whitespace with empty tokens discarded. -/
def claimedArgsC1 (gdb : Bool) (files : List String) (output flags : String) : List String :=
  (if gdb then ["-g"] else []) ++ files ++ ["-o", output]
    ++ ((jsSplit isWhitespaceChar flags).filter (fun s => s ≠ ""))

/-- The options string `getArgs` reads for a given classification. -/
def optionsFor (cfg : Config) (fileType : Option String) : String :=
  if fileType = some "C++" then cfg.cppCompilerOptions else cfg.cCompilerOptions

/-- Terminal executable selected for a configured terminal name (spec-side
TerminalSpec table). -/
def termName (terminal : Option String) : String :=
  if terminal = some "GNOME Terminal" then "gnome-terminal"
  else if terminal = some "Konsole" then "konsole"
  else if terminal = some "xfce4-terminal" then "xfce4-terminal"
  else if terminal = some "pantheon-terminal" then "pantheon-terminal"
  else if terminal = some "URxvt" then "urxvt"
  else if terminal = some "MATE Terminal" then "mate-terminal"
  else "xterm"

/-- Hold-open-after-exit flag of each terminal (spec-side TerminalSpec table):
empty for the three terminals the code gives no hold flag at all. -/
def termHold (terminal : Option String) : List String :=
  if terminal = some "GNOME Terminal" then []
  else if terminal = some "Konsole" then ["--hold"]
  else if terminal = some "xfce4-terminal" then ["--hold"]
  else if terminal = some "pantheon-terminal" then []
  else if terminal = some "URxvt" then ["-hold"]
  else if terminal = some "MATE Terminal" then []
  else ["-hold"]

/-- Execute-flag argument of each terminal (spec-side TerminalSpec table). -/
def termExec (terminal : Option String) : List String :=
  if terminal = some "GNOME Terminal" then ["--command"]
  else if terminal = some "Konsole" then ["-e"]
  else if terminal = some "xfce4-terminal" then ["--command"]
  else if terminal = some "pantheon-terminal" then ["-e"]
  else if terminal = some "URxvt" then ["-e"]
  else if terminal = some "MATE Terminal" then ["--command"]
  else ["-e"]

/-- The configured terminal names the Linux branch recognizes. -/
def supportedTerminals : List String :=
  ["GNOME Terminal", "Konsole", "xfce4-terminal", "pantheon-terminal", "URxvt", "MATE Terminal"]

/-- Does a trace contain an error notification? -/
def hasErrorNotification (t : List Effect) : Bool :=
  t.any (fun e => match e with | Effect.notifyError _ => true | _ => false)

/-- Is an effect a launch of the compiled program (terminal spawn or shell exec)? -/
def isLaunch (e : Effect) : Bool :=
  match e with
  | Effect.spawnTerminal _ => true
  | Effect.execShell _ _ => true
  | _ => false

/-- Does a trace launch the compiled program? -/
def launched (t : List Effect) : Bool := t.any isLaunch

/-- Apply one effect to a file system modelled as an association list from
path to content: writes overwrite, deletes remove, everything else leaves
the file system unchanged. -/
def applyEffect (fs : List (String × String)) (e : Effect) : List (String × String) :=
  match e with
  | Effect.writeFile p c => (p, c) :: fs.filter (fun q => q.1 ≠ p)
  | Effect.deleteFile p => fs.filter (fun q => q.1 ≠ p)
  | _ => fs

/-- Apply a whole trace to a file system, left to right. -/
def applyEffects (fs : List (String × String)) (t : List Effect) : List (String × String) :=
  t.foldl applyEffect fs

/-- Content of the file at `p`, if present. -/
def fileContent (fs : List (String × String)) (p : String) : Option String :=
  (fs.find? (fun q => q.1 = p)).map (fun q => q.2)

/-- Number of double-quote characters in a string. -/
def countQuote (s : String) : Nat := s.data.count '"'

/-- A concrete configuration holding every default value of the package's
`config` schema (with the terminal choice unset, as it has no schema entry). -/
def defaultConfig : Config :=
  { addCompilingErr := true, splitDirection := "down", debug := false,
    cCompilerOptions := "", cppCompilerOptions := "", runAfterCompile := true,
    showWarnings := true, cCompiler := "gcc", cppCompiler := "g++",
    compileToTmpDirectory := true, closeErrorTabOnSuccess := true,
    showErrorNotifications := false, linuxTerminal := none }

/-- A concrete `path.parse` result used in witnesses and counterexamples. -/
def sampleInfo : PathInfo := { dir := "/home/u", name := "main", base := "main.c", ext := ".c" }

/-- C1 counterexample: the extra-flags string is split on the space character
only, not on whitespace in general. With C compiler options `"a\tb"` the code
passes the single token `"a\tb"` to the compiler, while the claim's
whitespace split would produce the two tokens `"a"` and `"b"`. -/
theorem getArgs_not_whitespace_split :
    getArgs ["f.c"] "/tmp/f" (some "C") none
        { defaultConfig with cCompilerOptions := "a\tb" }
      ≠ claimedArgsC1 false ["f.c"] "/tmp/f" "a\tb" := by decide

/-- C1 (amended): for every language kind, source-path list, configured
extra-flags string and attachDebugger value, the compiler argument vector is
the debug flag `-g` (exactly when the debugger was requested), then the
source paths in caller-supplied order, then `-o` and the output path, then
the configured extra flags split on the space character (not on general
whitespace) with every empty-string token discarded, so repeated, leading or
trailing spaces yield no empty-string tokens. -/
theorem getArgs_layout (files : List String) (output : String) (fileType : Option String)
    (gdb : Bool) (cfg : Config) :
    getArgs files output fileType (if gdb then some ["-g"] else none) cfg
      = (if gdb then ["-g"] else []) ++ files ++ ["-o", output]
        ++ ((jsSplit (fun c => c = ' ') (optionsFor cfg fileType)).filter (fun s => s ≠ ""))
    ∧ ∀ t ∈ (jsSplit (fun c => c = ' ') (optionsFor cfg fileType)).filter (fun s => s ≠ ""),
        t ≠ "" := by
  constructor
  · cases gdb <;> simp [getArgs, optionsFor]
  · intro t ht
    simp only [List.mem_filter, decide_eq_true_eq] at ht
    exact ht.2

/-- A configuration selecting GNOME Terminal and compiling next to the source. -/
def cfgGnome : Config :=
  { defaultConfig with linuxTerminal := some "GNOME Terminal", compileToTmpDirectory := false }

/-- C2 counterexample: for GNOME Terminal no hold-open-after-exit flag exists
at all, so no argument prefix and hold flag can make the launch arguments fit
the claimed layout (prefix, then hold flag when not debugging / `gdb` when
debugging, then the compiled path): without the debugger the spawn gets
`["--command", "/home/u/main"]` and with it `["--command", "gdb", "/home/u/main"]`.
The claimed layout forces both argument lists to have the same length. -/
theorem linux_hold_flag_counterexample :
    ¬ ∃ (pre : List String) (hold : String),
      (linuxTerminalSpawn cfgGnome "/tmp" sampleInfo false).args
          = pre ++ [hold] ++ ["/home/u/main"]
      ∧ (linuxTerminalSpawn cfgGnome "/tmp" sampleInfo true).args
          = pre ++ ["gdb"] ++ ["/home/u/main"] := by
  rintro ⟨pre, hold, h1, h2⟩
  have e1 : (linuxTerminalSpawn cfgGnome "/tmp" sampleInfo false).args
      = ["--command", "/home/u/main"] := by decide
  have e2 : (linuxTerminalSpawn cfgGnome "/tmp" sampleInfo true).args
      = ["--command", "gdb", "/home/u/main"] := by decide
  rw [e1] at h1
  rw [e2] at h2
  have l1 := congrArg List.length h1
  have l2 := congrArg List.length h2
  simp only [List.length_append, List.length_cons, List.length_nil] at l1 l2
  omega

/-- C2 (amended): on Linux the launch argument list is the terminal's hold
flag (present only when the debugger is not attached, and only for Konsole,
xfce4-terminal, URxvt and the xterm fallback — GNOME Terminal,
pantheon-terminal and MATE Terminal have no hold flag at all), then the
terminal's execute-flag argument, then the token `gdb` exactly when the
debugger is attached, then the compiled path; the working directory is the
source directory, and an unset or unrecognized terminal choice falls back to
xterm. -/
theorem linuxTerminalSpawn_layout (cfg : Config) (tmpdir : String) (info : PathInfo)
    (gdb : Bool) :
    linuxTerminalSpawn cfg tmpdir info gdb
      = { command := termName cfg.linuxTerminal,
          args := (if gdb then [] else termHold cfg.linuxTerminal)
                    ++ termExec cfg.linuxTerminal ++ (if gdb then ["gdb"] else [])
                    ++ [getCompiledPath cfg tmpdir info.dir info.name],
          cwd := info.dir }
    ∧ (∀ t, cfg.linuxTerminal = some t → t ∉ supportedTerminals →
        termName cfg.linuxTerminal = "xterm")
    ∧ (cfg.linuxTerminal = none → termName cfg.linuxTerminal = "xterm") := by
  refine ⟨?_, ?_, ?_⟩
  · unfold linuxTerminalSpawn linuxTerminalTable termName termHold termExec
    split_ifs <;> cases gdb <;> simp
  · intro t h hns
    simp only [supportedTerminals, List.mem_cons, List.not_mem_nil, or_false, not_or] at hns
    obtain ⟨n1, n2, n3, n4, n5, n6⟩ := hns
    simp [termName, h, n1, n2, n3, n4, n5, n6]
  · intro h
    simp [termName, h]

/-- C2 witness: an unrecognized terminal name falls back to xterm, and with a
concrete unrecognized configuration the spawn has the amended layout. -/
theorem linuxTerminalSpawn_layout_witness :
    termName (some "kitty") = "xterm"
    ∧ linuxTerminalSpawn { defaultConfig with linuxTerminal := some "kitty" } "/tmp"
        sampleInfo false
      = { command := "xterm", args := ["-hold", "-e", "/tmp/main"], cwd := "/home/u" } := by
  have h := linuxTerminalSpawn_layout
    { defaultConfig with linuxTerminal := some "kitty" } "/tmp" sampleInfo false
  refine ⟨h.2.1 "kitty" rfl (by decide), ?_⟩
  rw [h.1]
  decide

/-- C3 counterexample: with no active text editor, `getFilePath` dereferences
`undefined` outside any `try`, so the invocation ends in an uncaught
exception; its trace is exactly `[raisedException]` and in particular
contains no error notification, contrary to the claim that this case is
surfaced to the user as one. -/
theorem compileFile_no_editor_counterexample :
    compileFile "linux" defaultConfig "/tmp" none (some "C") false 0 "" WriteOutcome.ok [] false
      = [Effect.raisedException]
    ∧ hasErrorNotification
        (compileFile "linux" defaultConfig "/tmp" none (some "C") false 0 "" WriteOutcome.ok []
          false) = false := by decide

/-- C3 (amended): when an active editor exists but its buffer has no file,
the whole operation reduces to a single error notification — no save, no
compiler spawn, no file written; when no active text editor exists at all,
the operation fails before any spawn by raising an uncaught exception, and
no error notification is posted. -/
theorem compileFile_precondition_failures (platform : String) (cfg : Config) (tmpdir : String)
    (fileType : Option String) (gdb : Bool) (code : Nat) (stderr : String)
    (wOut : WriteOutcome) (openEditors : List String) (artifactExists : Bool) :
    compileFile platform cfg tmpdir (some none) fileType gdb code stderr wOut openEditors
        artifactExists
      = [Effect.notifyError "File not found. Save before compiling."]
    ∧ compileFile platform cfg tmpdir none fileType gdb code stderr wOut openEditors
        artifactExists
      = [Effect.raisedException] :=
  ⟨rfl, rfl⟩

/-- C4: when the compiler exits non-zero and persisting diagnostics is
enabled, every file the handler writes is the fixed artifact
`compiling_error.txt` in the source directory with exactly the accumulated
standard-error text as content; when the write/open succeeds that write is
performed, when it fails the failure is only logged; no success notification
ever appears, and the only error notification the trace can contain is the
one carrying the compiler's own standard-error text — an artifact failure is
never surfaced and never masks the compile failure. -/
theorem compile_failure_artifact (platform : String) (cfg : Config) (tmpdir : String)
    (info : PathInfo) (gdb : Bool) (code : Nat) (stderr : String) (wOut : WriteOutcome)
    (openEditors : List String) (artifactExists : Bool) (trace : List Effect)
    (htrace : trace = compileOnClose platform cfg tmpdir info gdb code stderr wOut
        openEditors artifactExists)
    (hcode : code ≠ 0) (herr : cfg.addCompilingErr = true) :
    (∀ p c, Effect.writeFile p c ∈ trace → p = errPath info ∧ c = stderr)
    ∧ (wOut = WriteOutcome.ok → Effect.writeFile (errPath info) stderr ∈ trace)
    ∧ (wOut ≠ WriteOutcome.ok → Effect.logged "Error writing compiling_error.txt" ∈ trace)
    ∧ (∀ m, Effect.notifySuccess m ∉ trace)
    ∧ (∀ m, Effect.notifyError m ∈ trace → m = stderr.replace "\n" "<br/>") := by
  subst htrace
  simp only [compileOnClose, if_pos hcode, herr, if_true]
  refine ⟨?_, ?_, ?_, ?_, ?_⟩
  · intro p c hpc
    cases wOut <;> by_cases hs : cfg.showErrorNotifications <;> simp_all
  · intro hw
    subst hw
    by_cases hs : cfg.showErrorNotifications <;> simp_all
  · intro hw
    cases wOut <;> by_cases hs : cfg.showErrorNotifications <;> simp_all
  · intro m
    cases wOut <;> by_cases hs : cfg.showErrorNotifications <;> simp_all
  · intro m hm
    cases wOut <;> by_cases hs : cfg.showErrorNotifications <;> simp_all

/-- C4 witness: a concrete failing compile with defaults writes the artifact
with exactly the compiler's standard-error text. -/
theorem compile_failure_artifact_witness :
    (1 : Nat) ≠ 0 ∧ defaultConfig.addCompilingErr = true
    ∧ Effect.writeFile (errPath sampleInfo) "error: x undeclared"
        ∈ compileOnClose "linux" defaultConfig "/tmp" sampleInfo false 1
            "error: x undeclared" WriteOutcome.ok [] false := by
  have h := compile_failure_artifact "linux" defaultConfig "/tmp" sampleInfo false 1
    "error: x undeclared" WriteOutcome.ok [] false _ rfl (by decide) (by decide)
  exact ⟨by decide, by decide, h.2.1 rfl⟩

/-- Every effect of `runProgram` is a launch (terminal spawn or shell exec). -/
theorem mem_runProgram_isLaunch (platform : String) (cfg : Config) (tmpdir : String)
    (info : PathInfo) (gdb : Bool) (e : Effect)
    (h : e ∈ runProgram platform cfg tmpdir info gdb) : isLaunch e = true := by
  unfold runProgram at h
  split_ifs at h <;> simp only [List.mem_singleton, List.not_mem_nil] at h
  · subst h; rfl
  · subst h; rfl
  · subst h; rfl

/-- An effect that never writes `p` keeps `p` absent from the file system. -/
theorem applyEffect_preserves_absent (p : String) (fs : List (String × String)) (e : Effect)
    (hw : ∀ c, e ≠ Effect.writeFile p c) (hfs : ∀ q ∈ fs, q.1 ≠ p) :
    ∀ q ∈ applyEffect fs e, q.1 ≠ p := by
  intro q hq
  cases e with
  | writeFile r c =>
      simp only [applyEffect, List.mem_cons] at hq
      rcases hq with h | h
      · subst h
        intro hrp
        have hrp2 : r = p := hrp
        exact hw c (by rw [hrp2])
      · exact hfs q (List.mem_of_mem_filter h)
  | deleteFile r => exact hfs q (List.mem_of_mem_filter hq)
  | saveEditor => exact hfs q hq
  | spawnCompiler c a w => exact hfs q hq
  | notifyError m => exact hfs q hq
  | notifyWarning m => exact hfs q hq
  | notifySuccess m => exact hfs q hq
  | openFile m => exact hfs q hq
  | closeTab m => exact hfs q hq
  | logged m => exact hfs q hq
  | spawnTerminal c => exact hfs q hq
  | execShell c w => exact hfs q hq
  | raisedException => exact hfs q hq

/-- A trace with no write to `p` keeps `p` absent from the file system. -/
theorem applyEffects_preserves_absent (p : String) :
    ∀ (t : List Effect) (fs : List (String × String)),
      (∀ c, Effect.writeFile p c ∉ t) → (∀ q ∈ fs, q.1 ≠ p) →
      ∀ q ∈ applyEffects fs t, q.1 ≠ p := by
  intro t
  induction t with
  | nil => intro fs _ hfs; exact hfs
  | cons e rest ih =>
      intro fs hw hfs
      have hw1 : ∀ c, e ≠ Effect.writeFile p c := by
        intro c he
        exact hw c (by rw [he]; exact List.mem_cons_self _ _)
      have hw2 : ∀ c, Effect.writeFile p c ∉ rest :=
        fun c hc => hw c (List.mem_cons_of_mem _ hc)
      exact ih (applyEffect fs e) hw2 (applyEffect_preserves_absent p fs e hw1 hfs)

/-- After a trace that deletes `p` and never writes it, `p` is absent from
the file system it produces, whatever the starting file system was. -/
theorem applyEffects_delete_absent (p : String) :
    ∀ (t : List Effect) (fs : List (String × String)),
      (∀ c, Effect.writeFile p c ∉ t) → Effect.deleteFile p ∈ t →
      ∀ q ∈ applyEffects fs t, q.1 ≠ p := by
  intro t
  induction t with
  | nil => intro fs _ hd; cases hd
  | cons e rest ih =>
      intro fs hw hd
      have hw2 : ∀ c, Effect.writeFile p c ∉ rest :=
        fun c hc => hw c (List.mem_cons_of_mem _ hc)
      rcases List.mem_cons.mp hd with he | hrest
      · subst he
        have habs : ∀ q ∈ applyEffect fs (Effect.deleteFile p), q.1 ≠ p := by
          intro q hq
          simp only [applyEffect, List.mem_filter, decide_eq_true_eq] at hq
          exact hq.2
        exact applyEffects_preserves_absent p rest (applyEffect fs (Effect.deleteFile p))
          hw2 habs
      · exact ih (applyEffect fs e) hw2 hrest

/-- A path whose key appears on no entry has no content. -/
theorem fileContent_eq_none (p : String) (fs : List (String × String))
    (h : ∀ q ∈ fs, q.1 ≠ p) : fileContent fs p = none := by
  unfold fileContent
  rw [List.find?_eq_none.mpr]
  · rfl
  · intro x hx
    simp only [decide_eq_true_eq]
    exact h x hx

/-- The success branch of the close handler writes no file. -/
theorem writeFile_not_mem_compileOnClose_zero (platform : String) (cfg : Config)
    (tmpdir : String) (info : PathInfo) (gdb : Bool) (stderr : String) (wOut : WriteOutcome)
    (openEditors : List String) (artifactExists : Bool) (p c : String) :
    Effect.writeFile p c
      ∉ compileOnClose platform cfg tmpdir info gdb 0 stderr wOut openEditors artifactExists := by
  intro hmem
  unfold compileOnClose at hmem
  rw [if_neg (by simp)] at hmem
  simp only [List.mem_append] at hmem
  rcases hmem with ((((h | h) | h) | h) | h)
  · split_ifs at h <;> simp_all
  · split_ifs at h
    · exact absurd (mem_runProgram_isLaunch _ _ _ _ _ _ h) (by simp [isLaunch])
    · simp_all
  · split_ifs at h <;> simp_all
  · split_ifs at h <;> simp_all
  · simp_all

/-- C5: on a zero exit the close handler deletes the diagnostics artifact
whenever it exists; when it does not exist the deletion step is skipped and
only logged, never surfaced as an error; when the close-on-success option is
enabled and a tab shows the artifact, the tab close comes before the
deletion in the effect order; and replaying the trace over any file system
leaves no file at the artifact path — so a successful recompile after a
failed compile removes the artifact the failure created. -/
theorem compile_success_cleanup (platform : String) (cfg : Config) (tmpdir : String)
    (info : PathInfo) (gdb : Bool) (code : Nat) (stderr : String) (wOut : WriteOutcome)
    (openEditors : List String) (artifactExists : Bool) (trace : List Effect)
    (htrace : trace = compileOnClose platform cfg tmpdir info gdb code stderr wOut
        openEditors artifactExists)
    (hcode : code = 0) :
    (artifactExists = true → Effect.deleteFile (errPath info) ∈ trace)
    ∧ (artifactExists = false → Effect.deleteFile (errPath info) ∉ trace
        ∧ ∀ m, Effect.notifyError m ∉ trace)
    ∧ (cfg.closeErrorTabOnSuccess = true → errPath info ∈ openEditors →
        artifactExists = true →
        List.Sublist [Effect.closeTab (errPath info), Effect.deleteFile (errPath info)] trace)
    ∧ (artifactExists = true →
        ∀ fs, fileContent (applyEffects fs trace) (errPath info) = none) := by
  subst hcode
  have hshape : compileOnClose platform cfg tmpdir info gdb 0 stderr wOut openEditors
      artifactExists
      = (if stderr ≠ "" ∧ cfg.showWarnings then
          [Effect.notifyWarning (stderr.replace "\n" "<br/>")] else [])
        ++ (if cfg.runAfterCompile then runProgram platform cfg tmpdir info gdb
            else [Effect.notifySuccess "Compilation Successful"])
        ++ (if cfg.closeErrorTabOnSuccess then
              (openEditors.filter (fun p => p = errPath info)).map Effect.closeTab
            else [])
        ++ (if artifactExists then [Effect.deleteFile (errPath info)]
            else [Effect.logged "Error deleting compiling_error.txt"])
        ++ [Effect.openFile (pathJoin info.dir info.base)] := by
    unfold compileOnClose
    rw [if_neg (by simp)]
  have hnowrite : ∀ c, Effect.writeFile (errPath info) c ∉ trace := by
    intro c
    rw [htrace]
    exact writeFile_not_mem_compileOnClose_zero platform cfg tmpdir info gdb stderr wOut
      openEditors artifactExists (errPath info) c
  have hdel : artifactExists = true → Effect.deleteFile (errPath info) ∈ trace := by
    intro hex
    rw [htrace, hshape, hex]
    simp
  refine ⟨hdel, ?_, ?_, ?_⟩
  · intro hex
    rw [htrace, hshape, hex]
    constructor
    · intro hmem
      simp only [List.mem_append] at hmem
      rcases hmem with ((((h | h) | h) | h) | h)
      · split_ifs at h <;> simp_all
      · split_ifs at h
        · exact absurd (mem_runProgram_isLaunch _ _ _ _ _ _ h) (by simp [isLaunch])
        · simp_all
      · split_ifs at h <;> simp_all
      · simp_all
      · simp_all
    · intro m hmem
      simp only [List.mem_append] at hmem
      rcases hmem with ((((h | h) | h) | h) | h)
      · split_ifs at h <;> simp_all
      · split_ifs at h
        · exact absurd (mem_runProgram_isLaunch _ _ _ _ _ _ h) (by simp [isLaunch])
        · simp_all
      · split_ifs at h <;> simp_all
      · simp_all
      · simp_all
  · intro hct hop hex
    rw [htrace, hshape, hct, hex]
    simp only [if_true]
    have h1 : Effect.closeTab (errPath info)
        ∈ (openEditors.filter (fun p => p = errPath info)).map Effect.closeTab :=
      List.mem_map.mpr ⟨errPath info, List.mem_filter.mpr ⟨hop, by simp⟩, rfl⟩
    have s12 : List.Sublist [Effect.closeTab (errPath info), Effect.deleteFile (errPath info)]
        ((openEditors.filter (fun p => p = errPath info)).map Effect.closeTab
          ++ [Effect.deleteFile (errPath info)]) :=
      List.Sublist.append (List.singleton_sublist.mpr h1) (List.Sublist.refl _)
    have s3 := s12.trans (List.sublist_append_left
      ((openEditors.filter (fun p => p = errPath info)).map Effect.closeTab
        ++ [Effect.deleteFile (errPath info)])
      [Effect.openFile (pathJoin info.dir info.base)])
    have s4 := s3.trans (List.sublist_append_right
      ((if stderr ≠ "" ∧ cfg.showWarnings then
          [Effect.notifyWarning (stderr.replace "\n" "<br/>")] else [])
        ++ (if cfg.runAfterCompile then runProgram platform cfg tmpdir info gdb
            else [Effect.notifySuccess "Compilation Successful"]))
      (((openEditors.filter (fun p => p = errPath info)).map Effect.closeTab
          ++ [Effect.deleteFile (errPath info)])
        ++ [Effect.openFile (pathJoin info.dir info.base)]))
    simpa [List.append_assoc] using s4
  · intro hex fs
    exact fileContent_eq_none _ _
      (applyEffects_delete_absent (errPath info) trace fs hnowrite (hdel hex))

/-- C5 witness: a concrete successful compile with the artifact present and
shown in a tab closes the tab before deleting, and replaying its trace on a
file system holding the artifact leaves no file at the artifact path. -/
theorem compile_success_cleanup_witness :
    Effect.deleteFile (errPath sampleInfo)
        ∈ compileOnClose "linux" defaultConfig "/tmp" sampleInfo false 0 "" WriteOutcome.ok
            [errPath sampleInfo] true
    ∧ List.Sublist [Effect.closeTab (errPath sampleInfo), Effect.deleteFile (errPath sampleInfo)]
        (compileOnClose "linux" defaultConfig "/tmp" sampleInfo false 0 "" WriteOutcome.ok
          [errPath sampleInfo] true)
    ∧ fileContent
        (applyEffects [(errPath sampleInfo, "old diagnostics")]
          (compileOnClose "linux" defaultConfig "/tmp" sampleInfo false 0 "" WriteOutcome.ok
            [errPath sampleInfo] true))
        (errPath sampleInfo) = none := by
  have h := compile_success_cleanup "linux" defaultConfig "/tmp" sampleInfo false 0 ""
    WriteOutcome.ok [errPath sampleInfo] true _ rfl rfl
  exact ⟨h.1 rfl, h.2.2.1 rfl (List.mem_cons_self _ _) rfl, h.2.2.2 rfl _⟩

/-- C6: on a zero exit no diagnostics file is created (the trace contains no
file write at all), the compiled program is launched exactly when
run-after-compile is enabled, and when it is disabled a success notification
is surfaced instead. Stated for the three supported platforms, where a
launch is observable as a terminal spawn or shell exec. -/
theorem compile_success_run (platform : String) (cfg : Config) (tmpdir : String)
    (info : PathInfo) (gdb : Bool) (code : Nat) (stderr : String) (wOut : WriteOutcome)
    (openEditors : List String) (artifactExists : Bool) (trace : List Effect)
    (htrace : trace = compileOnClose platform cfg tmpdir info gdb code stderr wOut
        openEditors artifactExists)
    (hcode : code = 0)
    (hplat : platform = "linux" ∨ platform = "win32" ∨ platform = "darwin") :
    (∀ p c, Effect.writeFile p c ∉ trace)
    ∧ launched trace = cfg.runAfterCompile
    ∧ (cfg.runAfterCompile = false → Effect.notifySuccess "Compilation Successful" ∈ trace) := by
  subst hcode
  have hshape : compileOnClose platform cfg tmpdir info gdb 0 stderr wOut openEditors
      artifactExists
      = (if stderr ≠ "" ∧ cfg.showWarnings then
          [Effect.notifyWarning (stderr.replace "\n" "<br/>")] else [])
        ++ (if cfg.runAfterCompile then runProgram platform cfg tmpdir info gdb
            else [Effect.notifySuccess "Compilation Successful"])
        ++ (if cfg.closeErrorTabOnSuccess then
              (openEditors.filter (fun p => p = errPath info)).map Effect.closeTab
            else [])
        ++ (if artifactExists then [Effect.deleteFile (errPath info)]
            else [Effect.logged "Error deleting compiling_error.txt"])
        ++ [Effect.openFile (pathJoin info.dir info.base)] := by
    unfold compileOnClose
    rw [if_neg (by simp)]
  have hlr : launched (runProgram platform cfg tmpdir info gdb) = true := by
    rcases hplat with h | h | h <;> subst h <;> simp [runProgram, launched, isLaunch]
  refine ⟨?_, ?_, ?_⟩
  · intro p c
    rw [htrace]
    exact writeFile_not_mem_compileOnClose_zero platform cfg tmpdir info gdb stderr wOut
      openEditors artifactExists p c
  · have hW : (if stderr ≠ "" ∧ cfg.showWarnings then
        [Effect.notifyWarning (stderr.replace "\n" "<br/>")] else []).any isLaunch = false := by
      split_ifs <;> rfl
    have hCL : (if cfg.closeErrorTabOnSuccess then
        (openEditors.filter (fun p => p = errPath info)).map Effect.closeTab
        else []).any isLaunch = false := by
      split_ifs
      · rw [Bool.eq_false_iff]
        intro hany
        rcases List.any_eq_true.mp hany with ⟨x, hx, hl⟩
        rcases List.mem_map.mp hx with ⟨y, hy, rfl⟩
        simp [isLaunch] at hl
      · rfl
    have hDEL : (if artifactExists then [Effect.deleteFile (errPath info)]
        else [Effect.logged "Error deleting compiling_error.txt"]).any isLaunch = false := by
      split_ifs <;> rfl
    have hOPEN : [Effect.openFile (pathJoin info.dir info.base)].any isLaunch = false := rfl
    have hR : (if cfg.runAfterCompile then runProgram platform cfg tmpdir info gdb
        else [Effect.notifySuccess "Compilation Successful"]).any isLaunch
        = cfg.runAfterCompile := by
      cases hr : cfg.runAfterCompile
      · rw [if_neg (by simp [hr])]
        rfl
      · rw [if_pos (by simp [hr])]
        exact hlr
    rw [htrace, hshape]
    simp only [launched, List.any_append, hW, hCL, hDEL, hOPEN, hR, Bool.or_false,
      Bool.false_or]
  · intro hr
    rw [htrace, hshape]
    simp [hr]

/-- C6 witness: a concrete successful compile with run-after-compile enabled
launches the program, writes nothing, and the same compile with it disabled
posts the success notification. -/
theorem compile_success_run_witness :
    launched (compileOnClose "linux" defaultConfig "/tmp" sampleInfo false 0 ""
        WriteOutcome.ok [] false) = defaultConfig.runAfterCompile
    ∧ Effect.notifySuccess "Compilation Successful"
        ∈ compileOnClose "linux" { defaultConfig with runAfterCompile := false } "/tmp"
            sampleInfo false 0 "" WriteOutcome.ok [] false := by
  have h1 := compile_success_run "linux" defaultConfig "/tmp" sampleInfo false 0 ""
    WriteOutcome.ok [] false _ rfl rfl (Or.inl rfl)
  have h2 := compile_success_run "linux" { defaultConfig with runAfterCompile := false }
    "/tmp" sampleInfo false 0 "" WriteOutcome.ok [] false _ rfl rfl (Or.inl rfl)
  exact ⟨h1.2.1, h2.2.2 rfl⟩

/-- C7: the Windows launch is a single shell `exec` (not an argv spawn) of a
command line that opens a new console window titled with the binary's base
name via `start "<name>" cmd /C "...`; with the debugger attached the command
after the quote starts with `gdb ` and carries no pause suffix, without it
the command ends in the pause-and-wait suffix `& echo. & pause` and contains
no debugger invocation. -/
theorem runProgram_windows (cfg : Config) (tmpdir : String) (info : PathInfo) (gdb : Bool) :
    runProgram "win32" cfg tmpdir info gdb
      = [Effect.execShell
          (winCommand info.name (getCompiledPath cfg tmpdir info.dir info.name) gdb)
          info.dir]
    ∧ (∀ name file : String,
        winCommand name file true = "start \"" ++ name ++ "\" cmd /C \"gdb " ++ file ++ " ")
    ∧ (∀ name file : String,
        winCommand name file false
          = "start \"" ++ name ++ "\" cmd /C \" " ++ file ++ " & echo. & pause") := by
  refine ⟨?_, ?_, ?_⟩
  · simp [runProgram]
  · intro name file
    simp [winCommand, String.append_assoc]
  · intro name file
    simp [winCommand, String.append_assoc]

/-- C8: whenever the binary's base name and the compiled path contain no
double-quote characters, the constructed Windows command line contains
exactly three double quotes — the pair around the window title plus the one
opened after `cmd /C` that is never closed, so the command line carries an
unbalanced quote. -/
theorem winCommand_quote_count (name file : String) (gdb : Bool)
    (hn : countQuote name = 0) (hf : countQuote file = 0) :
    countQuote (winCommand name file gdb) = 3 := by
  unfold countQuote at hn hf ⊢
  cases gdb <;>
    simp only [winCommand, if_true, if_false, String.data_append, List.count_append] <;>
    rw [hn, hf] <;> rfl

/-- C8 witness: with a quote-free name and path the command line holds
exactly three double quotes. -/
theorem winCommand_quote_count_witness :
    countQuote "main" = 0 ∧ countQuote "/tmp/main" = 0
    ∧ countQuote (winCommand "main" "/tmp/main" true) = 3 :=
  ⟨by decide, by decide, winCommand_quote_count "main" "/tmp/main" true (by decide) (by decide)⟩

/-- C9: on macOS the launcher always spawns `open` with only the compiled
path as argument, with the source directory as working directory; the launch
is identical whether or not the debugger was requested, so the debug flag
has no effect on this platform. -/
theorem runProgram_darwin (cfg : Config) (tmpdir : String) (info : PathInfo) (gdb : Bool) :
    runProgram "darwin" cfg tmpdir info gdb
      = [Effect.spawnTerminal
          { command := "open", args := [getCompiledPath cfg tmpdir info.dir info.name],
            cwd := info.dir }]
    ∧ runProgram "darwin" cfg tmpdir info true = runProgram "darwin" cfg tmpdir info false := by
  constructor
  · simp [runProgram]
  · simp [runProgram]

/-- C10: for every file-type classification other than exactly `"C"` or
`"C++"` — including an absent one — the compiler lookup returns no command,
and the compile path still performs the spawn with that absent command: the
spawn effect carrying `none` is in the trace of `compileFile`, unguarded. -/
theorem getCommand_unknown (cfg : Config) (fileType : Option String)
    (h1 : fileType ≠ some "C") (h2 : fileType ≠ some "C++")
    (platform tmpdir filePath : String) (gdb : Bool) (code : Nat) (stderr : String)
    (wOut : WriteOutcome) (openEditors : List String) (artifactExists : Bool) :
    getCommand cfg fileType = none
    ∧ Effect.spawnCompiler none
        (getArgs [filePath]
          (getCompiledPath cfg tmpdir (parsePath filePath).dir (parsePath filePath).name)
          fileType (if gdb then some ["-g"] else none) cfg)
        (parsePath filePath).dir
      ∈ compileFile platform cfg tmpdir (some (some filePath)) fileType gdb code stderr
          wOut openEditors artifactExists := by
  have hc : getCommand cfg fileType = none := by
    unfold getCommand
    rw [if_neg h1, if_neg h2]
  refine ⟨hc, ?_⟩
  show Effect.spawnCompiler none _ _ ∈ compileEffects platform cfg tmpdir
    (getCommand cfg fileType) (parsePath filePath) _ gdb true code stderr wOut openEditors
    artifactExists
  rw [hc]
  unfold compileEffects
  simp

/-- C10 witness: a Python classification yields no compiler command, and the
spawn with the absent command still appears in the compile trace. -/
theorem getCommand_unknown_witness :
    getCommand defaultConfig (some "Python") = none
    ∧ Effect.spawnCompiler none
        (getArgs ["/home/u/x.py"]
          (getCompiledPath defaultConfig "/tmp" (parsePath "/home/u/x.py").dir
            (parsePath "/home/u/x.py").name)
          (some "Python") none defaultConfig)
        (parsePath "/home/u/x.py").dir
      ∈ compileFile "linux" defaultConfig "/tmp" (some (some "/home/u/x.py")) (some "Python")
          false 1 "error" WriteOutcome.ok [] false :=
  getCommand_unknown defaultConfig (some "Python") (by decide) (by decide) "linux" "/tmp"
    "/home/u/x.py" false 1 "error" WriteOutcome.ok [] false

end PulsarGppCompiler
